import Mathlib

set_option maxHeartbeats 1000000
set_option maxRecDepth 100000

/- Shallow embedding of the german-study app's provider adapter
(aiService.ts) and of its storage service (storageService.ts) and the
ChatScreen caller, with theorems about the claimed properties. -/

/-- JavaScript-like dynamic values, as carried by JSON request and
response bodies. `undefined` models JavaScript undefined; `null` models JSON
null. -/
inductive JValue where
  | null : JValue
  | undefined : JValue
  | str : String → JValue
  | num : Int → JValue
  | bool : Bool → JValue
  | arr : List JValue → JValue
  | obj : List (String × JValue) → JValue

/-- JavaScript property access `v.k`: raises a TypeError when the base is
null or undefined, yields the field (or undefined when the key is absent)
on an object, and undefined on any other value. -/
def JValue.getField : JValue → String → Except String JValue
  | .null, k => .error ("TypeError: cannot read properties of null, reading " ++ k)
  | .undefined, k => .error ("TypeError: cannot read properties of undefined, reading " ++ k)
  | .obj fields, k => .ok ((fields.lookup k).getD .undefined)
  | _, _ => .ok .undefined

/-- JavaScript index access `v[i]`: raises a TypeError on null or
undefined, yields the element (or undefined when out of bounds) on an
array, and undefined on any other value. -/
def JValue.getIndex : JValue → Nat → Except String JValue
  | .null, _ => .error "TypeError: cannot read properties of null, indexing"
  | .undefined, _ => .error "TypeError: cannot read properties of undefined, indexing"
  | .arr xs, i => .ok (xs.getD i .undefined)
  | _, _ => .ok .undefined

/-- JavaScript optional chaining `v?.k`: never raises, yields undefined
on null, undefined, absent keys, and non-objects. -/
def JValue.getOpt : JValue → String → JValue
  | .obj fields, k => (fields.lookup k).getD .undefined
  | _, _ => .undefined

/-- JavaScript truthiness of a JValue. -/
def JValue.truthy : JValue → Bool
  | .null => false
  | .undefined => false
  | .str s => s != ""
  | .num n => n != 0
  | .bool b => b
  | .arr _ => true
  | .obj _ => true

/-- Whether an Except is a success. -/
def isOkE {α β : Type} : Except α β → Bool
  | .ok _ => true
  | .error _ => false

/-- The AIProvider union type from aiService.ts. -/
inductive AIProvider where
  | openai | anthropic | perplexity
  deriving Repr, DecidableEq, Inhabited

/-- The provider name as interpolated into template literals. -/
def providerStr : AIProvider → String
  | .openai => "openai"
  | .anthropic => "anthropic"
  | .perplexity => "perplexity"

/-- One entry of API_CONFIG: endpoint URL, model identifier, and the
header-construction rule applied to the API key. -/
structure ProviderConfig where
  apiUrl : String
  model : String
  headers : String → List (String × String)

/-- API_CONFIG from aiService.ts, as a lookup on the provider. -/
def API_CONFIG : AIProvider → ProviderConfig
  | .openai =>
    { apiUrl := "https://api.openai.com/v1/chat/completions"
      model := "gpt-4-vision-preview"
      headers := fun apiKey =>
        [("Content-Type", "application/json"),
         ("Authorization", "Bearer " ++ apiKey)] }
  | .anthropic =>
    { apiUrl := "https://api.anthropic.com/v1/messages"
      model := "claude-3-opus-20240229"
      headers := fun apiKey =>
        [("Content-Type", "application/json"),
         ("x-api-key", apiKey),
         ("anthropic-version", "2023-06-01")] }
  | .perplexity =>
    { apiUrl := "https://api.perplexity.ai/chat/completions"
      model := "sonar"
      headers := fun apiKey =>
        [("Content-Type", "application/json"),
         ("Authorization", "Bearer " ++ apiKey)] }

/-- One part of a multi-part user message: a text part, an inline
image_url part (openai and perplexity), or anthropic's structured
base64 source block with its media type and data. -/
inductive ContentPart where
  | text : String → ContentPart
  | imageUrl : String → ContentPart
  | imageSource : String → String → ContentPart
  deriving Repr, DecidableEq

/-- Message content: either a plain string (text-only requests) or a list
of parts (image requests). -/
inductive MessageContent where
  | str : String → MessageContent
  | parts : List ContentPart → MessageContent
  deriving Repr, DecidableEq

/-- One message of the outgoing body. -/
structure ChatMessage where
  role : String
  content : MessageContent
  deriving Repr, DecidableEq

/-- The provider-shaped wire body: model identifier, messages, and the
optional max_tokens parameter (absent where the body does not carry it). -/
structure RequestBody where
  model : String
  messages : List ChatMessage
  max_tokens : Option Nat
  deriving Repr, DecidableEq

/-- The hardcoded Turkish instructional preamble declared inside
formatRequestBody in aiService.ts, copied verbatim. -/
def defaultPrompt : String :=
  "Bu resmi analiz et ve açıkla. Bu muhtemelen bir Almanca çalışma veya dersidir. Ödevim için yardımcı ol. Bana öğretmen gibi yaklaş hatalarım varsa söyle. Sen benim Almanca öğretmenimsin. Sorularımı sana soracağım. Cevabın lütfen Türkçe olsun. Almanca ifadeleri italic ver. Resmi ekte gönderiyorum: "

/-- formatRequestBody from aiService.ts. The effectful imageToBase64
collaborator (resize to 800px, JPEG 0.7, then base64-encode) is passed in
as img2b64, mapping a source URI to the base64 string and the scaled-copy
URI. Returns the body together with the scaled URI (null when no image). -/
def formatRequestBody (img2b64 : String → String × String)
    (provider : AIProvider) (prompt : String) (imageUri : Option String) :
    RequestBody × Option String :=
  let config := API_CONFIG provider
  match imageUri with
  | some uri =>
    let imageData := img2b64 uri
    let base64Image := imageData.1
    let scaledUri := imageData.2
    match provider with
    | .openai =>
      ({ model := config.model
         messages := [{ role := "user"
                        content := .parts
                          [.text (defaultPrompt ++ prompt),
                           .imageUrl ("data:image/jpeg;base64," ++ base64Image)] }]
         max_tokens := some 1000 }, some scaledUri)
    | .anthropic =>
      ({ model := config.model
         messages := [{ role := "user"
                        content := .parts
                          [.text (defaultPrompt ++ prompt),
                           .imageSource "image/jpeg" base64Image] }]
         max_tokens := some 1000 }, some scaledUri)
    | .perplexity =>
      ({ model := config.model
         messages := [{ role := "user"
                        content := .parts
                          [.text (defaultPrompt ++ prompt),
                           .imageUrl ("data:image/jpeg;base64," ++ base64Image)] }]
         max_tokens := none }, some scaledUri)
  | none =>
    match provider with
    | .openai =>
      ({ model := config.model
         messages := [{ role := "user", content := .str prompt }]
         max_tokens := some 1000 }, none)
    | .anthropic =>
      ({ model := config.model
         messages := [{ role := "user", content := .str prompt }]
         max_tokens := some 1000 }, none)
    | .perplexity =>
      ({ model := config.model
         messages := [{ role := "user", content := .str prompt }]
         max_tokens := none }, none)

/-- parseResponse from aiService.ts, with the JavaScript access chains
made explicit: each provider nests the reply text differently, an access
on undefined or null raises a TypeError, and an absent key on an object
yields undefined. -/
def parseResponse (provider : AIProvider) (data : JValue) : Except String JValue :=
  match provider with
  | .openai => do
      let c ← data.getField "choices"
      let c0 ← c.getIndex 0
      let m ← c0.getField "message"
      m.getField "content"
  | .anthropic => do
      let c ← data.getField "content"
      let c0 ← c.getIndex 0
      c0.getField "text"
  | .perplexity => do
      let c ← data.getField "choices"
      let c0 ← c.getIndex 0
      let m ← c0.getField "message"
      m.getField "content"

/-- Outcome of the single axios.post call as the try/catch observes it: a
2xx response carrying a data payload; a non-2xx response, on which axios
throws an error carrying error.response with its status and data; or no
response received at all (error.request only). -/
inductive HttpOutcome where
  | success : JValue → HttpOutcome
  | httpError : Nat → JValue → HttpOutcome
  | noResponse : HttpOutcome

/-- The distinguishable failures sendToAI surfaces to its caller: the
missing-key error thrown before any work; the non-2xx case with the
extracted provider message; the no-response network case; and the generic
local case (anything thrown while building or handling the request,
including a parse TypeError). -/
inductive AIError where
  | missingKey : String → AIError
  | httpError : JValue → AIError
  | networkError : String → AIError
  | genericError : String → AIError

/-- The AIResponse record returned on success. The text field holds
whatever value the parse chain produced. -/
structure AIResponse where
  text : JValue
  provider : AIProvider
  scaledImageUri : Option String

/-- Which effects a call to sendToAI performed: how many image
transformations, whether a request body was constructed, and how many
network calls were made. -/
structure SendTrace where
  imageTransforms : Nat
  bodyBuilt : Bool
  networkCalls : Nat
  deriving Repr, DecidableEq

/-- The error-message extraction in the catch block of sendToAI:
error.response.data?.error?.message, else error.response.data?.error,
else the generic status-code message; JavaScript or-chains fall through
falsy values. -/
def httpErrorMessage (status : Nat) (data : JValue) : JValue :=
  let m := (data.getOpt "error").getOpt "message"
  if m.truthy then m
  else
    let e := data.getOpt "error"
    if e.truthy then e
    else .str ("Error: " ++ toString status)

/-- Models the JavaScript expression `scaledUri || undefined` on the
success path: null and the empty string are falsy and become undefined. -/
def jsOrNoneStr : Option String → Option String
  | none => none
  | some s => if s = "" then none else some s

/-- sendToAI from aiService.ts. The network is the oracle net, mapping
the endpoint URL, the body and the headers to the observed outcome; the
image conversion is the oracle img2b64. The result pairs the value the
caller receives (ok or a distinguishable error, rethrown by the catch
block) with the trace of performed effects. -/
def sendToAI (net : String → RequestBody → List (String × String) → HttpOutcome)
    (img2b64 : String → String × String)
    (provider : AIProvider) (apiKey : String) (prompt : String)
    (imageUri : Option String) : Except AIError AIResponse × SendTrace :=
  if apiKey = "" then
    (.error (.missingKey ("API key for " ++ providerStr provider ++ " is not set")),
     { imageTransforms := 0, bodyBuilt := false, networkCalls := 0 })
  else
    let config := API_CONFIG provider
    let fr := formatRequestBody img2b64 provider prompt imageUri
    let tr : SendTrace :=
      { imageTransforms := if imageUri.isSome then 1 else 0
        bodyBuilt := true
        networkCalls := 1 }
    match net config.apiUrl fr.1 (config.headers apiKey) with
    | .success data =>
      match parseResponse provider data with
      | .ok v => (.ok { text := v, provider := provider, scaledImageUri := jsOrNoneStr fr.2 }, tr)
      | .error m => (.error (.genericError m), tr)
    | .httpError status data => (.error (.httpError (httpErrorMessage status data)), tr)
    | .noResponse =>
      (.error (.networkError "No response from server. Please check your internet connection."), tr)

/-- The ApiKeys record of storageService.ts: one optional key per
provider. -/
structure ApiKeys where
  openai : Option String
  anthropic : Option String
  perplexity : Option String
  deriving Repr, DecidableEq

/-- The HistoryItem record of storageService.ts. -/
structure HistoryItem where
  id : String
  prompt : String
  response : String
  provider : AIProvider
  imageUri : Option String
  timestamp : Nat
  deriving Repr, DecidableEq

/-- The theme alternatives of the Settings record. -/
inductive ThemeSetting where
  | light | dark | system
  deriving Repr, DecidableEq

/-- The language alternatives of the Settings record. -/
inductive LanguageSetting where
  | en | de | tr
  deriving Repr, DecidableEq

/-- The Settings record of storageService.ts. -/
structure Settings where
  defaultProvider : AIProvider
  theme : ThemeSetting
  language : LanguageSetting
  deriving Repr, DecidableEq

/-- DEFAULT_SETTINGS from storageService.ts. -/
def DEFAULT_SETTINGS : Settings :=
  { defaultProvider := .anthropic, theme := .system, language := .en }

/-- A Partial Settings update: each field optionally present. -/
structure PartialSettings where
  defaultProvider : Option AIProvider
  theme : Option ThemeSetting
  language : Option LanguageSetting
  deriving Repr, DecidableEq

/-- The AsyncStorage key-value store restricted to the three keys the
storage service uses. JSON stringify and parse round-trip faithfully on
these record types, so each slot holds the structured value directly;
none models an absent key. -/
structure StorageState where
  apiKeysSlot : Option ApiKeys
  historySlot : Option (List HistoryItem)
  settingsSlot : Option Settings
  deriving Repr, DecidableEq

/-- getHistory from storageService.ts: the stored list, or the empty list
when nothing is stored. -/
def getHistory (st : StorageState) : List HistoryItem :=
  st.historySlot.getD []

/-- saveHistoryItem from storageService.ts: read the current history,
unshift the new item onto its front, and store the result. -/
def saveHistoryItem (item : HistoryItem) (st : StorageState) : StorageState :=
  { st with historySlot := some (item :: getHistory st) }

/-- getSettings from storageService.ts: the stored settings, or
DEFAULT_SETTINGS when nothing is stored. -/
def getSettings (st : StorageState) : Settings :=
  st.settingsSlot.getD DEFAULT_SETTINGS

/-- The object spread in saveSettings: fields present in the partial
update override the current settings; the rest keep their value. -/
def spreadSettings (cur : Settings) (p : PartialSettings) : Settings :=
  { defaultProvider := p.defaultProvider.getD cur.defaultProvider
    theme := p.theme.getD cur.theme
    language := p.language.getD cur.language }

/-- saveSettings from storageService.ts: merge the partial update over
the current settings and store the merged record. -/
def saveSettings (p : PartialSettings) (st : StorageState) : StorageState :=
  { st with settingsSlot := some (spreadSettings (getSettings st) p) }

/-- The fallback prompt hardcoded in ChatScreen.handleSend. -/
def chatFallbackPrompt : String := "Please analyze this image and explain it in detail."

/-- A string all of whose characters are whitespace; such a string trims
to the empty string, which is falsy. -/
def isBlank (s : String) : Bool :=
  s.toList.all fun c => c.isWhitespace

/-- The guard at the top of ChatScreen.handleSend: when the trimmed input
text is empty and no image is attached, it returns early and nothing is
sent; otherwise the submission proceeds. -/
def handleSendSubmits (inputText : String) (imageUri : Option String) : Bool :=
  !(isBlank inputText && imageUri.isNone)

/-- The prompt ChatScreen.handleSend passes to sendToAI: inputText, or
(inputText being empty, hence falsy) the fallback prompt. -/
def handleSendPrompt (inputText : String) : String :=
  if inputText = "" then chatFallbackPrompt else inputText

/-- Whether the first list starts with the second. -/
def charsHavePrefix : List Char → List Char → Bool
  | _, [] => true
  | [], _ :: _ => false
  | a :: as, b :: bs => a == b && charsHavePrefix as bs

/-- Whether the second list occurs contiguously inside the first. -/
def charsContain : List Char → List Char → Bool
  | [], needle => needle.isEmpty
  | a :: as, needle => charsHavePrefix (a :: as) needle || charsContain as needle

/-- Whether needle occurs as a contiguous substring of hay. -/
def strContains (hay needle : String) : Bool :=
  charsContain hay.toList needle.toList

/-- The single text part of a one-message body, when it has one. -/
def firstTextPart (b : RequestBody) : Option String :=
  match b.messages with
  | [m] =>
    match m.content with
    | .str s => some s
    | .parts (ContentPart.text t :: _) => some t
    | .parts _ => none
  | _ => none

/-- C1: for every provider, when the credential string is empty, sendToAI
fails with the missing-credential error and performs no image transform,
builds no body, and makes no network call, whatever the collaborators
would have returned. -/
theorem sendToAI_empty_key_fails_fast
    (net : String → RequestBody → List (String × String) → HttpOutcome)
    (img2b64 : String → String × String)
    (provider : AIProvider) (prompt : String) (imageUri : Option String) :
    sendToAI net img2b64 provider "" prompt imageUri =
      (.error (.missingKey ("API key for " ++ providerStr provider ++ " is not set")),
       { imageTransforms := 0, bodyBuilt := false, networkCalls := 0 }) := by
  rfl

/-- C2: openai end to end: the text-only body holds exactly one user
message whose content is exactly the prompt, and with the mocked 2xx
choices payload sendToAI succeeds with that embedded text and provider
openai. -/
theorem sendToAI_openai_text_roundtrip :
    (∀ img2b64, (formatRequestBody img2b64 .openai "Was bedeutet \x27Haus\x27?" none).1.messages
        = [{ role := "user", content := .str "Was bedeutet \x27Haus\x27?" }])
    ∧ sendToAI
        (fun _ _ _ => .success (.obj [("choices",
            .arr [.obj [("message", .obj [("content", .str "\x27Haus\x27 means \x27house\x27.")])]])]))
        (fun _ => ("", "")) .openai "sk-test" "Was bedeutet \x27Haus\x27?" none
      = (.ok { text := .str "\x27Haus\x27 means \x27house\x27.", provider := .openai,
               scaledImageUri := none },
         { imageTransforms := 0, bodyBuilt := true, networkCalls := 1 }) :=
  ⟨fun _ => rfl, rfl⟩

/-- C3 counterexample: with an empty prompt and an image attached, the
body builder substitutes nothing: the text part is exactly the fixed
Turkish preamble with the empty prompt appended, and the claimed English
fallback instruction occurs nowhere in it. -/
theorem formatRequestBody_no_fallback_substitution :
    (formatRequestBody (fun _ => ("IMGDATA", "scaled.jpg")) .openai "" (some "photo.jpg")).1.messages
      = [{ role := "user", content := .parts
            [.text (defaultPrompt ++ ""),
             .imageUrl "data:image/jpeg;base64,IMGDATA"] }]
    ∧ strContains (defaultPrompt ++ "") "analyze this image and explain it" = false :=
  ⟨rfl, by decide⟩

/-- C3 amended: the substitution lives in the caller, not in the body
builder: on empty input text handleSend passes the fixed fallback string,
and for every provider the image body's single text part is the fixed
Turkish preamble immediately followed by that fallback, which does
contain the claimed instruction text and is never empty. -/
theorem empty_prompt_fallback_via_caller (provider : AIProvider) (uri b64 su : String) :
    handleSendPrompt "" = "Please analyze this image and explain it in detail."
    ∧ firstTextPart (formatRequestBody (fun _ => (b64, su)) provider (handleSendPrompt "") (some uri)).1
        = some (defaultPrompt ++ chatFallbackPrompt)
    ∧ strContains chatFallbackPrompt "analyze this image and explain it" = true
    ∧ (defaultPrompt ++ chatFallbackPrompt) ≠ "" := by
  refine ⟨rfl, ?_, by decide, by decide⟩
  cases provider <;> rfl

/-- C4 counterexample: on the malformed openai payload whose message
object lacks the content key, parseResponse succeeds with undefined
instead of raising any error. -/
theorem parseResponse_missing_content_silent :
    parseResponse .openai (.obj [("choices", .arr [.obj [("message", .obj [])]])])
      = .ok .undefined := rfl

/-- C4 amended: for each provider parseResponse on a well-formed payload
returns exactly the embedded text, and a payload missing an intermediate
key raises a TypeError; but when only the innermost text key is missing
the access chain yields undefined, which is returned without error. -/
theorem parseResponse_extraction (t : String) :
    parseResponse .openai
        (.obj [("choices", .arr [.obj [("message", .obj [("content", .str t)])]])]) = .ok (.str t)
    ∧ parseResponse .perplexity
        (.obj [("choices", .arr [.obj [("message", .obj [("content", .str t)])]])]) = .ok (.str t)
    ∧ parseResponse .anthropic
        (.obj [("content", .arr [.obj [("text", .str t)]])]) = .ok (.str t)
    ∧ isOkE (parseResponse .openai (.obj [])) = false
    ∧ isOkE (parseResponse .openai (.obj [("choices", .arr [])])) = false
    ∧ isOkE (parseResponse .anthropic (.obj [("content", .arr [])])) = false
    ∧ isOkE (parseResponse .perplexity (.obj [("choices", .arr [.obj []])])) = false
    ∧ parseResponse .anthropic (.obj [("content", .arr [.obj []])]) = .ok .undefined :=
  ⟨rfl, rfl, rfl, rfl, rfl, rfl, rfl, rfl⟩

/-- C5 counterexample: with a non-empty credential, an empty prompt and
no image, sendToAI rejects nothing: it performs the network call and
returns the parsed answer. -/
theorem sendToAI_empty_request_not_rejected :
    sendToAI (fun _ _ _ => .success (.obj [("choices",
        .arr [.obj [("message", .obj [("content", .str "hello")])]])]))
      (fun _ => ("", "")) .openai "sk-test" "" none
      = (.ok { text := .str "hello", provider := .openai, scaledImageUri := none },
         { imageTransforms := 0, bodyBuilt := true, networkCalls := 1 }) := rfl

/-- C5 amended: the adapter performs no empty-request validation: with
any non-empty credential it builds the empty text-only body and makes the
network call; the rejection of entirely empty submissions lives in the
caller, whose handleSend guard drops them before the adapter is invoked. -/
theorem empty_request_guard_in_caller (provider : AIProvider) (key : String)
    (hk : key ≠ "") :
    (sendToAI (fun _ _ _ => .noResponse) (fun _ => ("", "")) provider key "" none).2.networkCalls = 1
    ∧ handleSendSubmits "" none = false := by
  refine ⟨?_, by decide⟩
  simp [sendToAI, hk]

/-- Witness for the C5 amended theorem at openai with key sk-test. -/
theorem empty_request_guard_in_caller_witness :
    (sendToAI (fun _ _ _ => .noResponse) (fun _ => ("", "")) .openai "sk-test" "" none).2.networkCalls = 1
    ∧ handleSendSubmits "" none = false :=
  empty_request_guard_in_caller .openai "sk-test" (by decide)

/-- C6: for all three providers, a text-only body has exactly one user
message whose content is exactly the prompt string and no image parts, no
scaled image URI, and max_tokens 1000 for openai and anthropic, while
perplexity's body carries no max_tokens parameter. -/
theorem formatRequestBody_text_only (img2b64 : String → String × String)
    (prompt : String) (provider : AIProvider) :
    (formatRequestBody img2b64 provider prompt none).1.messages
        = [{ role := "user", content := .str prompt }]
    ∧ (formatRequestBody img2b64 provider prompt none).2 = none
    ∧ (formatRequestBody img2b64 provider prompt none).1.max_tokens
        = (if provider = .perplexity then none else some 1000) := by
  cases provider <;> exact ⟨rfl, rfl, rfl⟩

/-- C7: for every prompt and image, each provider's image body holds a
single user message with exactly two parts: a text part that is the fixed
preamble immediately followed by the user prompt, and an image part, an
inline base64 data URI for openai and perplexity and the structured
base64 source block for anthropic. -/
theorem formatRequestBody_image (prompt uri b64 su : String) :
    (formatRequestBody (fun _ => (b64, su)) .openai prompt (some uri)).1.messages
      = [{ role := "user", content := .parts
            [.text (defaultPrompt ++ prompt), .imageUrl ("data:image/jpeg;base64," ++ b64)] }]
    ∧ (formatRequestBody (fun _ => (b64, su)) .perplexity prompt (some uri)).1.messages
      = [{ role := "user", content := .parts
            [.text (defaultPrompt ++ prompt), .imageUrl ("data:image/jpeg;base64," ++ b64)] }]
    ∧ (formatRequestBody (fun _ => (b64, su)) .anthropic prompt (some uri)).1.messages
      = [{ role := "user", content := .parts
            [.text (defaultPrompt ++ prompt), .imageSource "image/jpeg" b64] }] :=
  ⟨rfl, rfl, rfl⟩

/-- C8: for every provider, a 429 response whose body carries
error.message yields the provider-supplied message, a non-2xx response
with an empty body yields the generic status-code message, and in both
cases the error reaches the caller after exactly one network call. -/
theorem sendToAI_http_error (provider : AIProvider) (prompt : String) :
    sendToAI (fun _ _ _ => .httpError 429 (.obj [("error", .obj [("message", .str "rate limited")])]))
        (fun _ => ("", "")) provider "sk-test" prompt none
      = (.error (.httpError (.str "rate limited")),
         { imageTransforms := 0, bodyBuilt := true, networkCalls := 1 })
    ∧ sendToAI (fun _ _ _ => .httpError 500 (.obj []))
        (fun _ => ("", "")) provider "sk-test" prompt none
      = (.error (.httpError (.str "Error: 500")),
         { imageTransforms := 0, bodyBuilt := true, networkCalls := 1 }) := by
  cases provider <;> exact ⟨rfl, rfl⟩

/-- C9: saving a history item prepends it: afterwards the stored history
is the new item followed by exactly the previous history in order. -/
theorem saveHistoryItem_prepends (st : StorageState) (item : HistoryItem) :
    getHistory (saveHistoryItem item st) = item :: getHistory st := rfl

/-- C10: saveSettings merges: every field named in the partial update
takes the new value, every field not named keeps its previous value, and
when nothing was stored the previous value is the default record with
provider anthropic, theme system, language en. -/
theorem saveSettings_merges (st : StorageState) (p : PartialSettings) :
    (∀ v, p.defaultProvider = some v →
        (getSettings (saveSettings p st)).defaultProvider = v)
    ∧ (p.defaultProvider = none →
        (getSettings (saveSettings p st)).defaultProvider = (getSettings st).defaultProvider)
    ∧ (∀ v, p.theme = some v → (getSettings (saveSettings p st)).theme = v)
    ∧ (p.theme = none → (getSettings (saveSettings p st)).theme = (getSettings st).theme)
    ∧ (∀ v, p.language = some v → (getSettings (saveSettings p st)).language = v)
    ∧ (p.language = none → (getSettings (saveSettings p st)).language = (getSettings st).language)
    ∧ (st.settingsSlot = none → getSettings st =
        { defaultProvider := .anthropic, theme := .system, language := .en }) := by
  refine ⟨fun v h => ?_, fun h => ?_, fun v h => ?_, fun h => ?_,
          fun v h => ?_, fun h => ?_, fun h => ?_⟩
  all_goals simp [getSettings, saveSettings, spreadSettings, h, DEFAULT_SETTINGS]

/-- Witness for the C10 theorem: updating only the theme on an empty
store sets the theme and leaves the default provider in place. -/
theorem saveSettings_merges_witness :
    (getSettings (saveSettings
        { defaultProvider := none, theme := some .dark, language := none }
        { apiKeysSlot := none, historySlot := none, settingsSlot := none })).theme
      = ThemeSetting.dark :=
  (saveSettings_merges
    { apiKeysSlot := none, historySlot := none, settingsSlot := none }
    { defaultProvider := none, theme := some .dark, language := none }).2.2.1
    ThemeSetting.dark rfl
